import Mathlib

/-!
Verification of the basalt-server competition backend core.

This file shallowly embeds, in Lean, the parts of the repository that the
frozen claims are about:

* the competition clock (src/basalt-server-lib/src/server/clock.rs),
* the submission repository queries
  (src/basalt-server-lib/src/repositories/submissions.rs),
* the session repository (src/basalt-server-lib/src/repositories/session.rs),
* the WebSocket manager (src/basalt-server-lib/src/server/websocket.rs),
* the WebSocket message handler (src/basalt-server-lib/src/services/ws/mod.rs).

Rust Instants / SQL timestamps are modelled as natural numbers, f64 scores as
rationals, and the SQLite tables as lists of rows.  Each definition is a
direct transcription of the corresponding Rust function; effectful handlers
return an explicit list of effects (runner invocations, database writes,
outbound messages) next to the updated state.
-/

namespace Basalt

/-! ## Clock (server/clock.rs)

The Rust struct stores `start_time : Instant`, `pause_time : Option<Instant>`
and `total_time_paused : Duration`.  Instants and durations become naturals;
`Instant::elapsed()` at instant `t` observed at time `now` is `now - t`
(truncated subtraction, as `elapsed` never goes negative). -/

structure ClockInfo where
  start_time : Nat
  pause_time : Option Nat
  total_time_paused : Nat
deriving DecidableEq, Repr

/-- Return value of `ClockInfo::current_time`. -/
structure CurrentTime where
  paused : Bool
  duration : Nat
deriving DecidableEq, Repr

/-- Transcription of `ClockInfo::pause`: computes `affected = pause_time.is_some()`
from the pre-state, then sets `pause_time` to `now` if it was unset, and
returns `affected`. -/
def ClockInfo.pause (c : ClockInfo) (now : Nat) : ClockInfo × Bool :=
  let affected := c.pause_time.isSome
  ({ c with pause_time := c.pause_time.or (some now) }, affected)

/-- Transcription of `ClockInfo::unpause`: computes `affected = pause_time.is_none()`
from the pre-state; if a pause instant is set, adds the time elapsed since it
into `total_time_paused` and clears it; returns `affected`. -/
def ClockInfo.unpause (c : ClockInfo) (now : Nat) : ClockInfo × Bool :=
  let affected := c.pause_time.isNone
  match c.pause_time with
  | some pause_time =>
      ({ c with total_time_paused := c.total_time_paused + (now - pause_time),
                pause_time := none }, affected)
  | none => (c, affected)

/-- Transcription of `ClockInfo::current_time`.  When paused it returns
`pause_time.elapsed()`; when running it returns
`(start_time + total_time_paused).elapsed()`.  The Rust `checked_add` cannot
fail over naturals, so the `anyhow::Result` wrapper is dropped. -/
def ClockInfo.current_time (c : ClockInfo) (now : Nat) : CurrentTime :=
  match c.pause_time with
  | some pause_time => { paused := true, duration := now - pause_time }
  | none => { paused := false, duration := now - (c.start_time + c.total_time_paused) }

/-- Transcription of `CurrentTime::time_left`: saturating subtraction. -/
def CurrentTime.time_left (t : CurrentTime) (time_limit : Nat) : Nat :=
  time_limit - t.duration

/-! ## Submission repository (repositories/submissions.rs)

A `submission_history` row, restricted to the columns the claims are about.
`id` is the random primary key, `time` the `CURRENT_TIMESTAMP` column,
`score` the f64 score modelled as a rational. -/

structure Submission where
  id : String
  submitter : String
  time : Nat
  question_index : Nat
  score : Rat
  success : Bool
deriving DecidableEq, Repr

/-- The database state touched by the submission repository: the
`submission_history` table and the `test_runs` table (user, question). -/
structure Db where
  submission_history : List Submission
  test_runs : List (String × Nat)
deriving DecidableEq, Repr

/-- Transcription of `count_previous_submissions`:
SELECT COUNT(*) FROM submission_history WHERE submitter = ? AND question_index = ?. -/
def count_previous_submissions (db : Db) (submitter : String) (question_index : Nat) : Nat :=
  (db.submission_history.filter fun h =>
    h.submitter == submitter && h.question_index == question_index).length

/-- Transcription of `count_other_submissions`:
SELECT COUNT(submitter) FROM submission_history
WHERE question_index = ? AND success = TRUE AND time < CURRENT_TIMESTAMP.
`now` is the value of CURRENT_TIMESTAMP at query time. -/
def count_other_submissions (db : Db) (question_index : Nat) (now : Nat) : Nat :=
  (db.submission_history.filter fun h =>
    h.question_index == question_index && h.success && decide (h.time < now)).length

/-- The inner grouped subquery of `get_user_score` / `get_latest_submissions`:
SELECT question_index, MAX(time) FROM submission_history
WHERE submitter = ? GROUP BY question_index.  `userMaxTime db u q` is the
MAX(time) entry for group `q` (0 if the group is empty; the join below only
consults it for non-empty groups). -/
def userMaxTime (db : Db) (u : String) (q : Nat) : Nat :=
  ((db.submission_history.filter fun h =>
    h.submitter == u && h.question_index == q).map (·.time)).foldr max 0

/-- Transcription of the `get_latest_submissions` query: rows `h` of the
user's submission history joined with the grouped subquery on
`h.question_index = t.question_index AND h.time = t.latest`.  A row of the
user survives the join exactly when its time attains the per-question
maximum (its own group is never empty because the row itself is in it). -/
def get_latest_submissions (db : Db) (u : String) : List Submission :=
  db.submission_history.filter fun h =>
    h.submitter == u && h.time == userMaxTime db u h.question_index

/-- Transcription of the `get_user_score` query: SUM(h.score) over exactly the
rows selected by the `get_latest_submissions` join; a NULL sum (no rows) is
mapped to 0 by `unwrap_or_default`. -/
def get_user_score (db : Db) (u : String) : Rat :=
  ((db.submission_history.filter fun h =>
      h.submitter == u && h.time == userMaxTime db u h.question_index).map
    (·.score)).foldr (· + ·) 0

/-! ## Session repository (repositories/session.rs) -/

/-- A row of the `users` table (columns relevant to session lookup). -/
structure UserRow where
  id : String
  username : String
deriving DecidableEq, Repr

/-- A row of the `sessions` table. -/
structure SessionRow where
  session_id : String
  user_id : String
  expires_at : Nat
deriving DecidableEq, Repr

/-- The slice of the store that `get_user_from_session` touches. -/
structure SessionStore where
  users : List UserRow
  sessions : List SessionRow
deriving DecidableEq, Repr

/-- Error type of `get_user_from_session` (the database-error variant is not
reachable in the pure model). -/
inductive GetSessionError where
  | sessionNotFound (session_id : String)
deriving DecidableEq, Repr

/-- Transcription of `get_user_from_session`.  The SQL join
(users JOIN sessions ON users.id = user_id WHERE session_id = ?) is fetched
with `fetch_optional`: no joined row yields `SessionNotFound`.  If the joined
row's `expires_at` is strictly in the past, the session rows with that id are
deleted and `SessionNotFound` is returned; otherwise the user is returned and
the store is untouched. -/
def get_user_from_session (store : SessionStore) (session_id : String) (now : Nat) :
    Except GetSessionError UserRow × SessionStore :=
  match store.sessions.find? (fun s => s.session_id == session_id) with
  | none => (.error (.sessionNotFound session_id), store)
  | some s =>
    match store.users.find? (fun u => u.id == s.user_id) with
    | none => (.error (.sessionNotFound session_id), store)
    | some u =>
      if s.expires_at < now then
        (.error (.sessionNotFound session_id),
         { store with sessions := store.sessions.filter (fun r => r.session_id != session_id) })
      else
        (.ok u, store)

/-! ## WebSocket manager (server/websocket.rs)

`ConnectionKind` is the registry key: a signed-in user (keyed by id) or an
anonymous leaderboard viewer (keyed by a random id plus socket address). -/

inductive ConnectionKind where
  | user (id : String)
  | leaderboard (id : String) (addr : String)
deriving DecidableEq, Repr

/-- Whether the connection belongs to a signed-in user
(`ConnectionKind::is_user`). -/
def ConnectionKind.is_user : ConnectionKind → Bool
  | .user _ => true
  | .leaderboard _ _ => false

/-- Model of `who.user().unwrap()` in the handlers: the user identity behind
the connection.  The Rust unwrap panics on a leaderboard connection; that
point is unreachable because `handle` rejects non-user connections through
`can_use` before either handler runs, so the empty string stands in for the
panic. -/
def ConnectionKind.userId : ConnectionKind → String
  | .user u => u
  | .leaderboard _ _ => ""

instance : BEq ConnectionKind := ⟨fun a b => decide (a = b)⟩

instance : LawfulBEq ConnectionKind where
  eq_of_beq h := by simpa [BEq.beq] using h
  rfl := by simp [BEq.beq]

/-- State of the `WebSocketManager`: the active-connection map
(connection kind to the sender half of its channel, modelled as a numeric
handle), the pending one-shot waiters keyed by user id (waiter ids stand for
the oneshot senders), the outcome each waiter's receiver has observed so far,
and a counter supplying fresh channel handles. -/
structure WsmState where
  active : List (ConnectionKind × Nat)
  waiting : List (String × Nat)
  resolved : List (Nat × Option Nat)
  nextHandle : Nat
deriving DecidableEq, Repr

/-- Lookup in the active-connection map (`active_connections.get`). -/
def WsmState.lookupActive (st : WsmState) (k : ConnectionKind) : Option Nat :=
  (st.active.find? (fun p => p.1 == k)).map (·.2)

/-- Outcome observed by waiter `w`: `none` while still pending, otherwise
`some (some h)` after receiving handle `h` or `some none` after timing out. -/
def WsmState.resolvedTo (st : WsmState) (w : Nat) : Option (Option Nat) :=
  (st.resolved.find? (fun p => p.1 == w)).map (·.2)

/-- Events of the manager, each one whole (atomically executed) call:
`waitFor u w` is a `wait_for_connection(u, _)` call that registers the fresh
one-shot waiter `w` when the user is not connected; `addConn k` is an
`add_connection(k)` call; `timeoutFire w` is the expiry of waiter w's window
before anything fulfilled it. -/
inductive WsmEv where
  | waitFor (u : String) (w : Nat)
  | addConn (k : ConnectionKind)
  | timeoutFire (w : Nat)

/-- Step function of the manager, transcribing `wait_for_connection` and
`add_connection`.  `waitFor`: if the user is in the active map the call
resolves immediately with that handle, otherwise the waiter is appended to
`waiting_connections[u]`.  `addConn`: a fresh channel handle is allocated;
when the key is a user, all waiters pending for that user are fulfilled with
the new handle and drained, and only then is the connection inserted
(replacing any entry with the same key).  `timeoutFire`: a still-pending
waiter resolves to `none` and its dead one-shot sender is dropped (sends to
it in Rust fail and are discarded, which removing it models). -/
def wsmStep (st : WsmState) : WsmEv → WsmState
  | .waitFor u w =>
    match st.lookupActive (.user u) with
    | some h => { st with resolved := (w, some h) :: st.resolved }
    | none => { st with waiting := (u, w) :: st.waiting }
  | .addConn k =>
    let h := st.nextHandle
    let st' :=
      match k with
      | .user u =>
        let fulfilled := st.waiting.filter (fun (p : String × Nat) => p.1 == u)
        { st with
          resolved := fulfilled.map (fun (p : String × Nat) => (p.2, some h)) ++ st.resolved,
          waiting := st.waiting.filter (fun (p : String × Nat) => p.1 != u) }
      | .leaderboard _ _ => st
    { st' with
      active := (k, h) :: st'.active.filter (fun p => p.1 != k),
      nextHandle := h + 1 }
  | .timeoutFire w =>
    if (st.resolvedTo w).isNone then
      { st with
        resolved := (w, none) :: st.resolved,
        waiting := st.waiting.filter (fun p => p.2 != w) }
    else st

/-! ## WebSocket message handler (services/ws/mod.rs)

The handler is embedded as a pure step function from the application state
(configuration, database, registry and guard sets) and an incoming message to
the updated state together with the ordered list of effects the Rust code
performs: sandbox-runner invocations, database writes, point-to-point sends
and broadcasts.  The sandboxed runner is an oracle passed in as a function
from the run request to its outcome. -/

/-- One test case of a problem (input, expected output, visibility flag). -/
structure TestCase where
  input : String
  output : String
  visible : Bool
deriving DecidableEq, Repr

/-- A problem of the packet: its ordered test cases. -/
structure Problem where
  tests : List TestCase
deriving DecidableEq, Repr

/-- The request handed to the sandboxed runner: the solution source and the
(input, expected output) pairs built with TestCase::new, plus the configured
timeout.  Compile/run commands and resource rules do not affect any claim and
are omitted. -/
structure RunnerRequest where
  solution : String
  tests : List (String × String)
  timeout : Nat
deriving DecidableEq, Repr

/-- Outcome of one test, mirroring erudite's TestOutput. -/
inductive TestOutput where
  | pass
  | failTimeout
  | failIncorrectOutput (stdout stderr : String)
  | failCrash (stdout stderr : String)
deriving DecidableEq, Repr

/-- Outcome of a whole runner invocation, mirroring erudite's RunOutput. -/
inductive RunOutput where
  | compileSpawnFail
  | compileFail (stdout stderr : String)
  | runSuccess (results : List TestOutput)
deriving DecidableEq, Repr

/-- The TestResults payload of a reply (InternalError / CompileFail /
Individual, the latter carrying (outcome, test case) pairs for the tests the
client is shown). -/
inductive TestResultsMsg where
  | internalError
  | compileFail (stdout stderr : String)
  | individual (tests : List (TestOutput × TestCase))
deriving DecidableEq, Repr

/-- A server-to-client WebSocket message (WebSocketSend). -/
inductive WsSend where
  | testResults (id : Nat) (results : TestResultsMsg) (percent : Nat)
  | submitResults (id : Nat) (results : TestResultsMsg) (percent : Nat)
      (remainingAttempts : Option Nat)
  | error (id : Option Nat) (message : String)
deriving DecidableEq, Repr

/-- A client-to-server WebSocket message (WebSocketRecv); the broadcast
payload is opaque here. -/
inductive WsRecv where
  | broadcast (payload : String)
  | runTest (id : Nat) (language : String) (solution : String) (problem : Nat)
  | submit (id : Nat) (language : String) (solution : String) (problem : Nat)
deriving DecidableEq, Repr

/-- The observable effects of handling one message, in program order. -/
inductive Effect where
  | invokeRunner (req : RunnerRequest)
  | dbAddTestRun (user : String) (question_index : Nat)
  | dbInsertSubmission (row : Submission)
  | dbInsertTestResult (submission_id : String) (test_index : Nat)
  | send (target : ConnectionKind) (msg : WsSend)
  | broadcastPayload (payload : String)
  | broadcastTeamUpdate (user : String)
deriving DecidableEq, Repr

/-- The slice of the server configuration the handler consults: the known
language names, the packet's problems, the optional submission ceiling
(NonZero in Rust, so 0 never occurs), the runner timeout, and the pluggable
scoring function (problem index, num other completions, num prior attempts). -/
structure Config where
  languages : List String
  problems : List Problem
  max_submissions : Option Nat
  timeout : Nat
  score : Nat → Nat → Nat → Rat

/-- The slice of AppState the handler touches: configuration, database,
active connection keys, and the two per-(connection, problem) guard sets. -/
structure AppState where
  config : Config
  db : Db
  active_connections : List ConnectionKind
  active_tests : List (ConnectionKind × Nat)
  active_submissions : List (ConnectionKind × Nat)

/-- The run request both handlers build before invoking the runner: the
solution source, one (input, expected output) pair per test case of the
problem — all of them, TestCase::new(&t.input, &t.output) is mapped over
problem.tests without any filter — and the configured timeout. -/
def buildRunnerRequest (config : Config) (solution : String) (problem_index : Nat) :
    RunnerRequest :=
  { solution := solution,
    tests := (config.problems.getD problem_index { tests := [] }).tests.map
      (fun t => (t.input, t.output)),
    timeout := config.timeout }

/-- Transcription of `WebSocketRecv::can_use`. -/
def WsRecv.can_use (m : WsRecv) (who : ConnectionKind) : Bool :=
  match m with
  | .broadcast _ => true
  | .runTest _ _ _ _ => who.is_user
  | .submit _ _ _ _ => who.is_user

/-- Transcription of `WebSocketRecv::id`. -/
def WsRecv.msgId : WsRecv → Option Nat
  | .broadcast _ => none
  | .runTest id _ _ _ => some id
  | .submit id _ _ _ => some id

/-- Continuation of `run_test` once the runner has resolved: the test_runs
row is recorded and the team update broadcast, then the reply for the given
outcome is sent (internal error on compile-spawn failure — with a second
team-update broadcast, as in the source —, the captured compile output on
compile failure, and on success the visible-only per-test results with the
all-tests pass percentage). -/
def runTestOutcome (state : AppState) (who : ConnectionKind) (id : Nat) (u : String)
    (problem : Problem) (problem_index : Nat) (req : RunnerRequest) (outcome : RunOutput) :
    AppState × List Effect :=
  match outcome with
  | .compileSpawnFail =>
    ({ state with
        db := { state.db with test_runs := state.db.test_runs ++ [(u, problem_index)] } },
     [.invokeRunner req, .dbAddTestRun u problem_index, .broadcastTeamUpdate u,
      .send who (.testResults id .internalError 0), .broadcastTeamUpdate u])
  | .compileFail out err =>
    ({ state with
        db := { state.db with test_runs := state.db.test_runs ++ [(u, problem_index)] } },
     [.invokeRunner req, .dbAddTestRun u problem_index, .broadcastTeamUpdate u,
      .send who (.testResults id (.compileFail out err) 0)])
  | .runSuccess vec =>
    ({ state with
        db := { state.db with test_runs := state.db.test_runs ++ [(u, problem_index)] } },
     [.invokeRunner req, .dbAddTestRun u problem_index, .broadcastTeamUpdate u,
      .send who (.testResults id
        (.individual ((vec.zip problem.tests).filter (fun rt => rt.2.visible)))
        ((vec.filter (fun r => r == .pass)).length * 100 / problem.tests.length))])

/-- Transcription of `WebSocketRecv::run_test`.  Steps in program order:
look up the caller's sender (an absent entry aborts with an internal error
and no effect); resolve the language or reply with an unknown-language error;
try to insert (who, problem) into the `active_tests` guard set, rejecting
with "Tests are already running" if present; build the runner request from
all of the problem's test cases; invoke the runner; record a test_runs row
and broadcast the team update; finally reply, filtering the per-test results
down to the visible test cases (the aggregate percent still counts every
test).  The guard key is removed again on every exit path (scopeguard), so
the final state's guard set is unchanged. -/
def runTestStep (state : AppState) (who : ConnectionKind) (id : Nat)
    (language solution : String) (problem_index : Nat)
    (runner : RunnerRequest → RunOutput) : AppState × List Effect :=
  if who ∈ state.active_connections then
    if state.config.languages.contains language then
      if (who, problem_index) ∈ state.active_tests then
        (state, [.send who (.error (some id) "Tests are already running")])
      else
        runTestOutcome state who id who.userId
          (state.config.problems.getD problem_index { tests := [] }) problem_index
          (buildRunnerRequest state.config solution problem_index)
          (runner (buildRunnerRequest state.config solution problem_index))
    else
      (state, [.send who (.error (some id) ("Unknown language " ++ language))])
  else (state, [])

/-- Continuation of `run_submission` once the runner has resolved.  On
compile-spawn failure or compile failure a failed submission row (zero score,
success = false) is persisted and an internal-error / compile-output reply
with the remaining-attempts count is sent, followed by the team broadcast.
On run success the other-completions count and the score are computed against
the pre-insert database, the submission row and one test-result row per test
are inserted in one transaction, and the reply (visible-only per-test
results, all-tests percentage, remaining attempts) and the team broadcast
follow the commit. -/
def runSubmissionOutcome (state : AppState) (who : ConnectionKind) (id : Nat) (u : String)
    (problem : Problem) (problem_index : Nat) (attempts : Nat) (req : RunnerRequest)
    (outcome : RunOutput) (now : Nat) (newId : String) : AppState × List Effect :=
  match outcome with
  | .compileSpawnFail =>
    ({ state with db := { state.db with
        submission_history := state.db.submission_history ++
          [{ id := newId, submitter := u, time := now,
             question_index := problem_index, score := 0, success := false }] } },
     [.invokeRunner req,
      .dbInsertSubmission { id := newId, submitter := u, time := now,
                            question_index := problem_index, score := 0, success := false },
      .send who (.submitResults id .internalError 0
        (state.config.max_submissions.map (fun x => x - attempts - 1))),
      .broadcastTeamUpdate u])
  | .compileFail out err =>
    ({ state with db := { state.db with
        submission_history := state.db.submission_history ++
          [{ id := newId, submitter := u, time := now,
             question_index := problem_index, score := 0, success := false }] } },
     [.invokeRunner req,
      .dbInsertSubmission { id := newId, submitter := u, time := now,
                            question_index := problem_index, score := 0, success := false },
      .send who (.submitResults id (.compileFail out err) 0
        (state.config.max_submissions.map (fun x => x - attempts - 1))),
      .broadcastTeamUpdate u])
  | .runSuccess vec =>
    ({ state with db := { state.db with
        submission_history := state.db.submission_history ++
          [{ id := newId, submitter := u, time := now, question_index := problem_index,
             score := if vec.all (fun x => x == .pass) then
                 state.config.score problem_index
                   (count_other_submissions state.db problem_index now) attempts
               else 0,
             success := vec.all (fun x => x == .pass) }] } },
     [.invokeRunner req,
      .dbInsertSubmission { id := newId, submitter := u, time := now,
                            question_index := problem_index,
                            score := if vec.all (fun x => x == .pass) then
                                state.config.score problem_index
                                  (count_other_submissions state.db problem_index now) attempts
                              else 0,
                            success := vec.all (fun x => x == .pass) }] ++
      (List.range vec.length).map (.dbInsertTestResult newId) ++
      [.send who (.submitResults id
         (.individual ((vec.zip problem.tests).filter (fun rt => rt.2.visible)))
         ((vec.filter (fun r => r == .pass)).length * 100 / problem.tests.length)
         (state.config.max_submissions.map (fun x => x - attempts - 1))),
       .broadcastTeamUpdate u])

/-- Transcription of `WebSocketRecv::run_submission`.  Program order: look up
the caller's sender; resolve the language; count the caller's previous
submissions for the problem and reject if the configured ceiling is reached
(before the guard and before any runner work); try to insert (who, problem)
into the `active_submissions` guard set, rejecting with "Submission is
already running" if present; build the run request from all test cases,
invoke the runner and hand its outcome to `runSubmissionOutcome`.  The guard
key is again released on every exit path. -/
def runSubmissionStep (state : AppState) (who : ConnectionKind) (id : Nat)
    (language solution : String) (problem_index : Nat)
    (runner : RunnerRequest → RunOutput) (now : Nat) (newId : String) :
    AppState × List Effect :=
  if who ∈ state.active_connections then
    if state.config.languages.contains language then
      if (match state.config.max_submissions with
          | some maxAllowed =>
            decide (maxAllowed ≤ count_previous_submissions state.db who.userId problem_index)
          | none => false) then
        (state, [.send who (.error (some id)
          ("Only " ++ toString (state.config.max_submissions.getD 0) ++
           " submissions are allowed."))])
      else if (who, problem_index) ∈ state.active_submissions then
        (state, [.send who (.error (some id) "Submission is already running")])
      else
        runSubmissionOutcome state who id who.userId
          (state.config.problems.getD problem_index { tests := [] }) problem_index
          (count_previous_submissions state.db who.userId problem_index)
          (buildRunnerRequest state.config solution problem_index)
          (runner (buildRunnerRequest state.config solution problem_index)) now newId
    else
      (state, [.send who (.error (some id) ("Unknown language " ++ language))])
  else (state, [])

/-- Transcription of `WebSocketRecv::handle`: look up the caller's sender; if
`can_use` denies the message, reply "Must be signed in to run tests" to the
caller only; otherwise dispatch to the broadcast, run_test or run_submission
path. -/
def wsHandle (state : AppState) (who : ConnectionKind) (msg : WsRecv)
    (runner : RunnerRequest → RunOutput) (now : Nat) (newId : String) :
    AppState × List Effect :=
  if who ∈ state.active_connections then
    if msg.can_use who then
      match msg with
      | .broadcast payload => (state, [.broadcastPayload payload])
      | .runTest id language solution problem =>
        runTestStep state who id language solution problem runner
      | .submit id language solution problem =>
        runSubmissionStep state who id language solution problem runner now newId
    else
      (state, [.send who (.error msg.msgId "Must be signed in to run tests")])
  else (state, [])

/-! ## Specification-side definitions used for comparison -/

/-- The value the specification ascribes to current_time().duration: elapsed
time since the competition start excluding the time spent paused (while a
pause is open, the clock is frozen at the pause instant). -/
def specAdjustedElapsed (c : ClockInfo) (now : Nat) : Nat :=
  match c.pause_time with
  | some p => p - c.start_time - c.total_time_paused
  | none => now - c.start_time - c.total_time_paused

/-! ## Claims about the clock -/

/-- C5: the claim states that pause()/unpause() return true exactly when the
call transitions the clock, so that pause() twice from the running state
returns true then false.  The code computes the flag from the PRE-state
(`pause_time.is_some()` for pause, `is_none()` for unpause), which is the
exact negation: an actual running-to-paused transition returns false and a
redundant pause returns true, and symmetrically for unpause.  This theorem
evaluates the embedded code on the failing inputs: a running clock paused at
time 5 transitions yet reports false; an already-paused clock reports true;
likewise for unpause. -/
theorem C5_pause_transition_report_inverted :
    ClockInfo.pause { start_time := 0, pause_time := none, total_time_paused := 0 } 5
      = ({ start_time := 0, pause_time := some 5, total_time_paused := 0 }, false)
  ∧ ClockInfo.pause { start_time := 0, pause_time := some 2, total_time_paused := 0 } 9
      = ({ start_time := 0, pause_time := some 2, total_time_paused := 0 }, true)
  ∧ ClockInfo.unpause { start_time := 0, pause_time := some 2, total_time_paused := 0 } 9
      = ({ start_time := 0, pause_time := none, total_time_paused := 7 }, false)
  ∧ ClockInfo.unpause { start_time := 0, pause_time := none, total_time_paused := 3 } 9
      = ({ start_time := 0, pause_time := none, total_time_paused := 3 }, true) :=
  ⟨rfl, rfl, rfl, rfl⟩

/-- C6: the claim states that current_time() reports paused exactly when a
pause instant is set (which the code satisfies) and that its duration equals
the elapsed time since start excluding time spent paused in BOTH cases.  In
the paused branch the code instead returns `pause_time.elapsed()`, the time
since the pause began.  Failing input: clock started at 0, paused at 10, no
prior pauses, read at 16 — the code yields duration 6, while the claimed
value is 10 (clock frozen at the pause instant), and even the reading that
ignores the open pause would give 16.  The running branch does match the
claim (third conjunct). -/
theorem C6_current_time_paused_duration_diverges :
    ClockInfo.current_time { start_time := 0, pause_time := some 10, total_time_paused := 0 } 16
      = { paused := true, duration := 6 }
  ∧ specAdjustedElapsed { start_time := 0, pause_time := some 10, total_time_paused := 0 } 16 = 10
  ∧ (ClockInfo.current_time { start_time := 0, pause_time := some 10, total_time_paused := 0 } 16).duration
      ≠ specAdjustedElapsed { start_time := 0, pause_time := some 10, total_time_paused := 0 } 16
  ∧ (ClockInfo.current_time { start_time := 0, pause_time := some 10, total_time_paused := 0 } 16).duration
      ≠ 16 - (0 + 0)
  ∧ ClockInfo.current_time { start_time := 0, pause_time := none, total_time_paused := 4 } 16
      = { paused := false, duration := specAdjustedElapsed { start_time := 0, pause_time := none, total_time_paused := 4 } 16 } := by
  refine ⟨rfl, rfl, by decide, by decide, rfl⟩

/-! ## Claim about session expiry -/

/-- C8: a session lookup whose joined row exists but is past expiry fails the
caller with SessionNotFound and deletes every session row with that id, and
a successful lookup never goes through an expired session. -/
theorem C8_expired_session_lookup (store : SessionStore) (sid : String) (now : Nat)
    (s : SessionRow) (u : UserRow)
    (hs : store.sessions.find? (fun r => r.session_id == sid) = some s)
    (hu : store.users.find? (fun r => r.id == s.user_id) = some u)
    (hexp : s.expires_at < now) :
    (get_user_from_session store sid now).1 = .error (.sessionNotFound sid)
  ∧ (∀ r ∈ (get_user_from_session store sid now).2.sessions, r.session_id ≠ sid)
  ∧ ∀ (store' : SessionStore) (sid' : String) (now' : Nat) (u' : UserRow),
      (get_user_from_session store' sid' now').1 = .ok u' →
      ∃ s', store'.sessions.find? (fun r => r.session_id == sid') = some s'
        ∧ ¬ s'.expires_at < now' := by
  refine ⟨?_, ?_, ?_⟩
  · simp only [get_user_from_session, hs, hu, if_pos hexp]
  · simp only [get_user_from_session, hs, hu, if_pos hexp]
    intro r hr
    have := List.of_mem_filter hr
    simpa using this
  · intro store' sid' now' u' hok
    unfold get_user_from_session at hok
    split at hok
    · exact absurd hok (by simp)
    · rename_i s' hfind
      split at hok
      · exact absurd hok (by simp)
      · rename_i u'' hfu
        split at hok
        · exact absurd hok (by simp)
        · rename_i hx
          exact ⟨s', hfind, hx⟩

/-- Witness for C8 at a concrete store: session sid1 for user u1 expired at
5, looked up at time 10. -/
theorem C8_expired_session_lookup_witness :
    (get_user_from_session
      { users := [{ id := "u1", username := "alice" }],
        sessions := [{ session_id := "sid1", user_id := "u1", expires_at := 5 }] }
      "sid1" 10).1 = .error (.sessionNotFound "sid1")
  ∧ ∀ r ∈ (get_user_from_session
      { users := [{ id := "u1", username := "alice" }],
        sessions := [{ session_id := "sid1", user_id := "u1", expires_at := 5 }] }
      "sid1" 10).2.sessions, r.session_id ≠ "sid1" := by
  have h := C8_expired_session_lookup
    { users := [{ id := "u1", username := "alice" }],
      sessions := [{ session_id := "sid1", user_id := "u1", expires_at := 5 }] }
    "sid1" 10 { session_id := "sid1", user_id := "u1", expires_at := 5 }
    { id := "u1", username := "alice" } rfl rfl (by decide)
  exact ⟨h.1, h.2.1⟩

/-! ## Claims about latest-per-problem scoring -/

/-- Every element of a list of naturals is bounded by the fold of max over
it (with seed 0), i.e. by the list's maximum. -/
theorem le_foldr_max_of_mem {l : List Nat} {x : Nat} (hx : x ∈ l) :
    x ≤ l.foldr max 0 := by
  induction l with
  | nil => cases hx
  | cons a l ih =>
    rcases List.mem_cons.mp hx with h | h
    · subst h; exact le_max_left _ _
    · exact le_trans (ih h) (le_max_right _ _)

/-- Any submission of user u for question q has time bounded by the grouped
subquery's MAX(time) for that group. -/
theorem time_le_userMaxTime (db : Db) (u : String) {h : Submission}
    (hmem : h ∈ db.submission_history) (hsub : h.submitter = u) :
    h.time ≤ userMaxTime db u h.question_index := by
  apply le_foldr_max_of_mem
  exact List.mem_map_of_mem _ (List.mem_filter.mpr ⟨hmem, by simp [hsub]⟩)

/-- C1: provided no two distinct rows of user u for the same problem share a
timestamp (distinct primary-key ids, distinct times within a (u, problem)
group), get_latest_submissions returns at most one row per problem index,
each returned row is one of u's rows attaining the maximum timestamp for its
problem, and get_user_score sums exactly the scores of those rows, so
superseded attempts never contribute. -/
theorem C1_score_sums_latest_rows (db : Db) (u : String)
    (hids : db.submission_history.Pairwise (fun a b => a.id ≠ b.id))
    (htime : ∀ a ∈ db.submission_history, ∀ b ∈ db.submission_history,
      a.submitter = u → b.submitter = u → a.question_index = b.question_index →
      a.id ≠ b.id → a.time ≠ b.time) :
    (get_latest_submissions db u).Pairwise (fun a b => a.question_index ≠ b.question_index)
  ∧ (∀ h ∈ get_latest_submissions db u,
      h ∈ db.submission_history ∧ h.submitter = u ∧
      ∀ h' ∈ db.submission_history, h'.submitter = u →
        h'.question_index = h.question_index → h'.time ≤ h.time)
  ∧ get_user_score db u = ((get_latest_submissions db u).map (·.score)).foldr (· + ·) 0 := by
  have hcond : ∀ h : Submission, h ∈ get_latest_submissions db u →
      h ∈ db.submission_history ∧ h.submitter = u ∧
        h.time = userMaxTime db u h.question_index := by
    intro h hmem
    have h1 := List.mem_filter.mp hmem
    refine ⟨h1.1, ?_, ?_⟩
    · have := h1.2
      simp only [Bool.and_eq_true, beq_iff_eq] at this
      exact this.1
    · have := h1.2
      simp only [Bool.and_eq_true, beq_iff_eq] at this
      exact this.2
  refine ⟨?_, ?_, rfl⟩
  · have hp : (get_latest_submissions db u).Pairwise (fun a b => a.id ≠ b.id) :=
      List.Pairwise.filter _ hids
    refine hp.imp_of_mem ?_
    intro a b ha hb hid
    have hca := hcond a ha
    have hcb := hcond b hb
    intro hq
    exact htime a hca.1 b hcb.1 hca.2.1 hcb.2.1 hq hid
      (by rw [hca.2.2, hcb.2.2, hq])
  · intro h hmem
    have hc := hcond h hmem
    refine ⟨hc.1, hc.2.1, ?_⟩
    intro h' hmem' hsub' hq'
    calc h'.time ≤ userMaxTime db u h'.question_index :=
          time_le_userMaxTime db u hmem' hsub'
      _ = userMaxTime db u h.question_index := by rw [hq']
      _ = h.time := (hc.2.2).symm

/-- Witness for C1: user u resubmitted problem 0 at a strictly later time
(score 0 after an earlier score 3); all hypotheses hold and the score counts
only the latest row. -/
theorem C1_score_sums_latest_rows_witness :
    (get_latest_submissions
      { submission_history :=
          [{ id := "a", submitter := "u", time := 1, question_index := 0, score := 3, success := true },
           { id := "b", submitter := "u", time := 2, question_index := 0, score := 0, success := false }],
        test_runs := [] } "u").Pairwise (fun a b => a.question_index ≠ b.question_index)
  ∧ (∀ h ∈ get_latest_submissions
      { submission_history :=
          [{ id := "a", submitter := "u", time := 1, question_index := 0, score := 3, success := true },
           { id := "b", submitter := "u", time := 2, question_index := 0, score := 0, success := false }],
        test_runs := [] } "u",
      h ∈ [{ id := "a", submitter := "u", time := 1, question_index := 0, score := 3, success := true },
           { id := "b", submitter := "u", time := 2, question_index := 0, score := 0, success := false }] ∧
      h.submitter = "u" ∧
      ∀ h' ∈ [({ id := "a", submitter := "u", time := 1, question_index := 0, score := 3, success := true } : Submission),
           { id := "b", submitter := "u", time := 2, question_index := 0, score := 0, success := false }],
        h'.submitter = "u" →
        h'.question_index = h.question_index → h'.time ≤ h.time)
  ∧ get_user_score
      { submission_history :=
          [{ id := "a", submitter := "u", time := 1, question_index := 0, score := 3, success := true },
           { id := "b", submitter := "u", time := 2, question_index := 0, score := 0, success := false }],
        test_runs := [] } "u"
      = ((get_latest_submissions
          { submission_history :=
              [{ id := "a", submitter := "u", time := 1, question_index := 0, score := 3, success := true },
               { id := "b", submitter := "u", time := 2, question_index := 0, score := 0, success := false }],
            test_runs := [] } "u").map (·.score)).foldr (· + ·) 0 :=
  C1_score_sums_latest_rows
    { submission_history :=
        [{ id := "a", submitter := "u", time := 1, question_index := 0, score := 3, success := true },
         { id := "b", submitter := "u", time := 2, question_index := 0, score := 0, success := false }],
      test_runs := [] } "u" (by decide) (by decide)

/-- Database with two rows of the same user for the same problem sharing one
timestamp (possible: the time column defaults to SQLite CURRENT_TIMESTAMP,
which has one-second resolution). -/
def tieDb : Db :=
  { submission_history :=
      [{ id := "a", submitter := "u", time := 5, question_index := 0, score := 3, success := true },
       { id := "b", submitter := "u", time := 5, question_index := 0, score := 4, success := true }],
    test_runs := [] }

/-- Counterexample to C1 as stated: with a timestamp tie the MAX-join keeps
both rows, so get_latest_submissions returns two rows for problem 0 (not at
most one), and get_user_score sums both tied rows (7) instead of the score of
a single latest row. -/
theorem C1_counterexample :
    ¬ (get_latest_submissions tieDb "u").Pairwise
        (fun a b => a.question_index ≠ b.question_index)
  ∧ (get_latest_submissions tieDb "u").length = 2
  ∧ get_user_score tieDb "u" = 7
  ∧ ∀ h ∈ get_latest_submissions tieDb "u", get_user_score tieDb "u" ≠ h.score := by
  refine ⟨by decide, by decide, by norm_num [get_user_score, tieDb, userMaxTime], ?_⟩
  intro h hmem
  fin_cases hmem <;> norm_num [get_user_score, tieDb, userMaxTime]

/-! ## Claim about count_other_submissions -/

/-- The count the claim describes: the number of DISTINCT users OTHER than
the current submitter having a successful submission for the problem with a
strictly earlier timestamp. -/
def specOtherUsersPassed (db : Db) (q : Nat) (submitter : String) (now : Nat) : Nat :=
  (((db.submission_history.filter fun h =>
      h.submitter != submitter && h.question_index == q && h.success &&
        decide (h.time < now)).map (·.submitter)).dedup).length

/-- Database holding a single successful earlier submission by the current
submitter u themself. -/
def ownPassDb : Db :=
  { submission_history :=
      [{ id := "a", submitter := "u", time := 1, question_index := 0, score := 1, success := true }],
    test_runs := [] }

/-- Database where one other user passed problem 0 twice at earlier times. -/
def doublePassDb : Db :=
  { submission_history :=
      [{ id := "a", submitter := "v", time := 1, question_index := 0, score := 1, success := true },
       { id := "b", submitter := "v", time := 2, question_index := 0, score := 1, success := true }],
    test_runs := [] }

/-- Counterexample to C4 as stated: the query has no submitter filter and no
DISTINCT, so the submitter's own earlier successful row is counted (1 against
the claimed 0), and a single other user passing twice is counted twice
(2 against the claimed 1). -/
theorem C4_counterexample :
    count_other_submissions ownPassDb 0 5 = 1
  ∧ specOtherUsersPassed ownPassDb 0 "u" 5 = 0
  ∧ count_other_submissions ownPassDb 0 5 ≠ specOtherUsersPassed ownPassDb 0 "u" 5
  ∧ count_other_submissions doublePassDb 0 5 = 2
  ∧ specOtherUsersPassed doublePassDb 0 "u" 5 = 1
  ∧ count_other_submissions doublePassDb 0 5 ≠ specOtherUsersPassed doublePassDb 0 "u" 5 := by
  refine ⟨by decide, by decide, by decide, by decide, by decide, by decide⟩

/-- C4 amended: count_other_submissions returns the number of submission
ROWS for the problem with success = true and a timestamp strictly earlier
than the query time, irrespective of who submitted them: it equals the count
of rows satisfying exactly that predicate, and renaming every submitter
(e.g. attributing rows to the current submitter or collapsing several users
into one) never changes it. -/
theorem C4_counts_earlier_successful_rows (db : Db) (q now : Nat) :
    count_other_submissions db q now
      = db.submission_history.countP
          (fun h => h.question_index == q && h.success && decide (h.time < now))
  ∧ ∀ rename : String → String,
      count_other_submissions
        { submission_history :=
            db.submission_history.map (fun h => { h with submitter := rename h.submitter }),
          test_runs := db.test_runs } q now
        = count_other_submissions db q now := by
  constructor
  · rw [count_other_submissions, List.countP_eq_length_filter]
  · intro rename
    simp only [count_other_submissions, List.filter_map, List.length_map]
    rfl

/-! ## Claim about the connection rendezvous -/

/-- C9: the rendezvous contract of the WebSocket manager.  (1) If the user is
already connected, a wait_for_connection call resolves immediately with the
existing handle.  (2) Otherwise it registers a one-shot waiter.  (3) When
add_connection later fires for that user, every waiter still pending for the
user is fulfilled with the very handle being inserted, the pending list for
that user is drained, and the connection is inserted; so a waiter whose
window is still open when add_connection arrives receives the handle.
(4) If the window elapses while the waiter is still pending, it resolves to
none. -/
theorem C9_wait_for_connection_rendezvous (st : WsmState) (u : String) (w : Nat) (h : Nat) :
    (st.lookupActive (.user u) = some h →
      (w, some h) ∈ (wsmStep st (.waitFor u w)).resolved)
  ∧ (st.lookupActive (.user u) = none →
      (wsmStep st (.waitFor u w)).waiting = (u, w) :: st.waiting)
  ∧ ((u, w) ∈ st.waiting →
      (w, some st.nextHandle) ∈ (wsmStep st (.addConn (.user u))).resolved
    ∧ (∀ p ∈ (wsmStep st (.addConn (.user u))).waiting, p.1 ≠ u)
    ∧ (ConnectionKind.user u, st.nextHandle) ∈ (wsmStep st (.addConn (.user u))).active)
  ∧ ((st.resolvedTo w).isNone → (w, none) ∈ (wsmStep st (.timeoutFire w)).resolved) := by
  refine ⟨?_, ?_, ?_, ?_⟩
  · intro hl
    simp only [wsmStep, hl]
    exact List.mem_cons_self _ _
  · intro hl
    simp only [wsmStep, hl]
  · intro hw
    refine ⟨?_, ?_, ?_⟩
    · simp only [wsmStep]
      apply List.mem_append_left
      exact List.mem_map.mpr ⟨(u, w), List.mem_filter.mpr ⟨hw, by simp⟩, rfl⟩
    · intro p hp
      simp only [wsmStep] at hp
      have := List.of_mem_filter hp
      simpa using this
    · simp only [wsmStep]
      exact List.mem_cons_self _ _
  · intro hr
    simp only [wsmStep, if_pos hr]
    exact List.mem_cons_self _ _

/-- Witness for C9 at a concrete manager state: waiter 0 for user u is
pending and nothing is resolved; connecting u fulfills it with the fresh
handle 5, and firing the timeout instead resolves it to none. -/
theorem C9_wait_for_connection_rendezvous_witness :
    ((0 : Nat), some (5 : Nat)) ∈ (wsmStep
      { active := [], waiting := [("u", 0)], resolved := [], nextHandle := 5 }
      (.addConn (.user "u"))).resolved
  ∧ ((0 : Nat), (none : Option Nat)) ∈ (wsmStep
      { active := [], waiting := [("u", 0)], resolved := [], nextHandle := 5 }
      (.timeoutFire 0)).resolved := by
  have h := C9_wait_for_connection_rendezvous
    { active := [], waiting := [("u", 0)], resolved := [], nextHandle := 5 } "u" 0 5
  exact ⟨(h.2.2.1 (by decide)).1, h.2.2.2 (by decide)⟩

/-! ## Claims about the message handler -/

/-- C10: a RunTest or Submit message from an anonymous leaderboard connection
is answered with an Error message "Must be signed in to run tests" sent to
that connection only; the state is unchanged and the single send is the whole
effect list, so no runner invocation, no database write and no broadcast
occur. -/
theorem C10_leaderboard_cannot_run (state : AppState) (lid addr : String)
    (msg : WsRecv) (runner : RunnerRequest → RunOutput) (now : Nat) (newId : String)
    (id : Nat) (language solution : String) (problem : Nat)
    (hconn : ConnectionKind.leaderboard lid addr ∈ state.active_connections)
    (hmsg : msg = .runTest id language solution problem
          ∨ msg = .submit id language solution problem) :
    wsHandle state (.leaderboard lid addr) msg runner now newId
      = (state, [.send (.leaderboard lid addr)
          (.error (some id) "Must be signed in to run tests")]) := by
  rcases hmsg with h | h <;> subst h <;>
    simp [wsHandle, hconn, WsRecv.can_use, ConnectionKind.is_user, WsRecv.msgId]

/-- Configuration used by the concrete handler scenarios of claim C10. -/
def c10Config : Config :=
  { languages := ["java"], problems := [{ tests := [] }], max_submissions := none,
    timeout := 10, score := fun _ _ _ => 0 }

/-- App state with one anonymous leaderboard connection. -/
def c10State : AppState :=
  { config := c10Config, db := { submission_history := [], test_runs := [] },
    active_connections := [.leaderboard "l1" "1.2.3.4"],
    active_tests := [], active_submissions := [] }

/-- Witness for C10: a concrete RunTest from the leaderboard connection is
answered with the sign-in error only. -/
theorem C10_leaderboard_cannot_run_witness :
    wsHandle c10State (.leaderboard "l1" "1.2.3.4") (.runTest 3 "java" "x" 0)
        (fun _ => .runSuccess []) 0 "s1"
      = (c10State, [.send (.leaderboard "l1" "1.2.3.4")
          (.error (some 3) "Must be signed in to run tests")]) :=
  C10_leaderboard_cannot_run c10State "l1" "1.2.3.4" (.runTest 3 "java" "x" 0)
    (fun _ => .runSuccess []) 0 "s1" 3 "java" "x" 0 (by decide) (Or.inl rfl)

/-- C3: when a submission ceiling N is configured and the caller already has
at least N persisted submissions for the problem, the Submit is rejected with
the descriptive error and nothing else happens: the returned state is the
input state unchanged (no submission row inserted, active_submissions guard
untouched — the rejection holds whatever that guard set contains) and the
error send is the only effect, so no runner invocation occurs. -/
theorem C3_attempt_ceiling_rejects (state : AppState) (u : String) (id : Nat)
    (language solution : String) (problem_index : Nat)
    (runner : RunnerRequest → RunOutput) (now : Nat) (newId : String) (maxAllowed : Nat)
    (hconn : ConnectionKind.user u ∈ state.active_connections)
    (hlang : state.config.languages.contains language = true)
    (hmax : state.config.max_submissions = some maxAllowed)
    (hceil : maxAllowed ≤ count_previous_submissions state.db u problem_index) :
    runSubmissionStep state (.user u) id language solution problem_index runner now newId
      = (state, [.send (.user u) (.error (some id)
          ("Only " ++ toString maxAllowed ++ " submissions are allowed."))]) := by
  have hl : language ∈ state.config.languages := by
    simpa using hlang
  simp [runSubmissionStep, ConnectionKind.userId, hconn, hl, hmax, hceil]

/-- Configuration with a ceiling of one submission, used by claim C3's
concrete scenario. -/
def c3Config : Config :=
  { languages := ["java"], problems := [{ tests := [{ input := "1", output := "2", visible := true }] }],
    max_submissions := some 1, timeout := 10, score := fun _ _ _ => 0 }

/-- App state where user u already has one persisted submission for
problem 0 under a ceiling of 1. -/
def c3State : AppState :=
  { config := c3Config,
    db := { submission_history := [{ id := "a", submitter := "u", time := 1,
                                     question_index := 0, score := 0, success := false }],
            test_runs := [] },
    active_connections := [.user "u"], active_tests := [], active_submissions := [] }

/-- Witness for C3: the second submit of user u for problem 0 under
max_submissions = 1 is rejected with the descriptive error and no effects. -/
theorem C3_attempt_ceiling_rejects_witness :
    runSubmissionStep c3State (.user "u") 9 "java" "code" 0
        (fun _ => .runSuccess [.pass]) 7 "s2"
      = (c3State, [.send (.user "u") (.error (some 9)
          ("Only " ++ toString 1 ++ " submissions are allowed."))]) :=
  C3_attempt_ceiling_rejects c3State "u" 9 "java" "code" 0
    (fun _ => .runSuccess [.pass]) 7 "s2" 1 (by decide) (by decide) rfl (by decide)

/-- C2 amended: the entry guards give per-kind mutual exclusion.  While a
RunTest is active for a (connection, problem) key, a further RunTest for the
same key is rejected with "Tests are already running" and nothing else
happens; while a Submit is active for a key, a further Submit for the same
key (that passes the attempt-ceiling check) is rejected with "Submission is
already running" and nothing else happens.  In both cases the returned state
is the input state and the error send is the only effect, so the rejection
precedes any runner invocation or persistence.  (The two guards are separate
sets, so a RunTest and a Submit for the same key may overlap, refuting the
claim's cross-kind exclusion: see the counterexample.) -/
theorem C2_same_kind_mutual_exclusion (state : AppState) (u : String) (id : Nat)
    (language solution : String) (problem_index : Nat)
    (runner : RunnerRequest → RunOutput) (now : Nat) (newId : String)
    (hconn : ConnectionKind.user u ∈ state.active_connections)
    (hlang : language ∈ state.config.languages) :
    ((ConnectionKind.user u, problem_index) ∈ state.active_tests →
      runTestStep state (.user u) id language solution problem_index runner
        = (state, [.send (.user u) (.error (some id) "Tests are already running")]))
  ∧ ((ConnectionKind.user u, problem_index) ∈ state.active_submissions →
      (match state.config.max_submissions with
        | some m => count_previous_submissions state.db u problem_index < m
        | none => True) →
      runSubmissionStep state (.user u) id language solution problem_index runner now newId
        = (state, [.send (.user u) (.error (some id) "Submission is already running")])) := by
  constructor
  · intro hkey
    simp [runTestStep, hconn, hlang, hkey]
  · intro hkey hceil
    rcases hmax : state.config.max_submissions with _ | m
    · simp [runSubmissionStep, ConnectionKind.userId, hconn, hlang, hkey, hmax]
    · rw [hmax] at hceil
      simp [runSubmissionStep, ConnectionKind.userId, hconn, hlang, hkey, hmax,
        Nat.not_le.mpr hceil]

/-- App state used by claim C2's scenarios: user u is connected, a RunTest
for (u, problem 0) is currently active (its key sits in active_tests) and a
Submit for the same key is active in active_submissions. -/
def c2State : AppState :=
  { config := { languages := ["java"],
                problems := [{ tests := [{ input := "1", output := "2", visible := true }] }],
                max_submissions := none, timeout := 10, score := fun _ _ _ => 0 },
    db := { submission_history := [], test_runs := [] },
    active_connections := [.user "u"],
    active_tests := [(.user "u", 0)],
    active_submissions := [(.user "u", 0)] }

/-- App state identical to c2State except that only the RunTest guard holds
the key: the Submit guard is free. -/
def c2TestOnlyState : AppState :=
  { config := { languages := ["java"],
                problems := [{ tests := [{ input := "1", output := "2", visible := true }] }],
                max_submissions := none, timeout := 10, score := fun _ _ _ => 0 },
    db := { submission_history := [], test_runs := [] },
    active_connections := [.user "u"],
    active_tests := [(.user "u", 0)],
    active_submissions := [] }

/-- Counterexample to C2 as stated: with a RunTest active for key
(user u, problem 0) — the key is in active_tests — an arriving Submit for the
very same key is NOT rejected: the sandbox runner is invoked (first conjunct)
and no "already running" error is sent (second conjunct), because RunTest and
Submit use two disjoint guard sets. -/
theorem C2_counterexample :
    Effect.invokeRunner { solution := "code", tests := [("1", "2")], timeout := 10 }
      ∈ (runSubmissionStep c2TestOnlyState (.user "u") 7 "java" "code" 0
          (fun _ => .runSuccess [.pass]) 3 "s1").2
  ∧ ∀ e ∈ (runSubmissionStep c2TestOnlyState (.user "u") 7 "java" "code" 0
          (fun _ => .runSuccess [.pass]) 3 "s1").2,
      e ≠ .send (.user "u") (.error (some 7) "Submission is already running")
    ∧ e ≠ .send (.user "u") (.error (some 7) "Tests are already running") := by
  refine ⟨by decide, by decide⟩

/-- Witness for C2: at c2State both guards hold the key, so a second RunTest
and a second Submit for (u, 0) are each rejected with the matching error and
no other effect. -/
theorem C2_same_kind_mutual_exclusion_witness :
    runTestStep c2State (.user "u") 7 "java" "code" 0 (fun _ => .runSuccess [.pass])
      = (c2State, [.send (.user "u") (.error (some 7) "Tests are already running")])
  ∧ runSubmissionStep c2State (.user "u") 7 "java" "code" 0
        (fun _ => .runSuccess [.pass]) 3 "s1"
      = (c2State, [.send (.user "u") (.error (some 7) "Submission is already running")]) := by
  have h := C2_same_kind_mutual_exclusion c2State "u" 7 "java" "code" 0
    (fun _ => .runSuccess [.pass]) 3 "s1" (by decide) (by decide)
  exact ⟨h.1 (by decide), h.2 (by decide) trivial⟩

/-- The run-request test list claim C7 describes: only the visible test
cases of the problem. -/
def specVisibleOnlyTests (p : Problem) : List (String × String) :=
  (p.tests.filter (·.visible)).map (fun t => (t.input, t.output))

/-- C7 amended: for a RunTest the request handed to the runner is built from
ALL of the problem's test cases, hidden ones included (first conjunct), and
it is the hidden information that is withheld from the reply instead: on a
successful run the reply sends the per-test results only for visible test
cases, while the aggregate percent still counts passes over every test
(second conjunct). -/
theorem C7_test_run_executes_all_tests (state : AppState) (u : String) (id : Nat)
    (language solution : String) (problem_index : Nat)
    (runner : RunnerRequest → RunOutput)
    (hconn : ConnectionKind.user u ∈ state.active_connections)
    (hlang : language ∈ state.config.languages)
    (hguard : (ConnectionKind.user u, problem_index) ∉ state.active_tests) :
    (buildRunnerRequest state.config solution problem_index).tests
      = (state.config.problems.getD problem_index { tests := [] }).tests.map
          (fun t => (t.input, t.output))
  ∧ Effect.invokeRunner (buildRunnerRequest state.config solution problem_index)
      ∈ (runTestStep state (.user u) id language solution problem_index runner).2
  ∧ ∀ vec,
      runner (buildRunnerRequest state.config solution problem_index) = .runSuccess vec →
      (runTestStep state (.user u) id language solution problem_index runner).2
        = [Effect.invokeRunner (buildRunnerRequest state.config solution problem_index),
           .dbAddTestRun u problem_index, .broadcastTeamUpdate u,
           .send (.user u) (.testResults id
             (.individual ((vec.zip (state.config.problems.getD problem_index
                 { tests := [] }).tests).filter (fun rt => rt.2.visible)))
             ((vec.filter (fun r => r == .pass)).length * 100
               / (state.config.problems.getD problem_index { tests := [] }).tests.length))] := by
  have hlangb : state.config.languages.contains language = true := by simpa using hlang
  refine ⟨rfl, ?_, ?_⟩
  · unfold runTestStep
    rw [if_pos hconn, if_pos hlangb, if_neg hguard]
    cases hr : runner (buildRunnerRequest state.config solution problem_index)
    all_goals simp [runTestOutcome, ConnectionKind.userId, hr]
  · intro vec hr
    unfold runTestStep
    rw [if_pos hconn, if_pos hlangb, if_neg hguard]
    simp [runTestOutcome, ConnectionKind.userId, hr]

/-- Problem with one visible and one hidden test case, used by claim C7's
scenarios. -/
def c7Problem : Problem :=
  { tests := [{ input := "i1", output := "o1", visible := true },
              { input := "i2", output := "o2", visible := false }] }

/-- App state serving c7Problem to the connected user u. -/
def c7State : AppState :=
  { config := { languages := ["java"], problems := [c7Problem],
                max_submissions := none, timeout := 10, score := fun _ _ _ => 0 },
    db := { submission_history := [], test_runs := [] },
    active_connections := [.user "u"],
    active_tests := [], active_submissions := [] }

/-- Counterexample to C7 as stated: for a RunTest on a problem with a hidden
test case, the request handed to the runner contains BOTH test cases — it is
not built from the visible test cases only — so the hidden test is executed
during the test run. -/
theorem C7_counterexample :
    Effect.invokeRunner { solution := "code",
                          tests := [("i1", "o1"), ("i2", "o2")], timeout := 10 }
      ∈ (runTestStep c7State (.user "u") 1 "java" "code" 0
          (fun _ => .runSuccess [.pass, .pass])).2
  ∧ [("i1", "o1"), ("i2", "o2")] ≠ specVisibleOnlyTests c7Problem := by
  refine ⟨by decide, by decide⟩

/-- Witness for C7: at c7State the runner request contains both tests, and
the reply to a run where only the hidden test failed shows the visible
result only, with percent 50 counting both tests. -/
theorem C7_test_run_executes_all_tests_witness :
    Effect.invokeRunner { solution := "code",
                          tests := [("i1", "o1"), ("i2", "o2")], timeout := 10 }
      ∈ (runTestStep c7State (.user "u") 1 "java" "code" 0
          (fun _ => .runSuccess [.pass, .failTimeout])).2
  ∧ (runTestStep c7State (.user "u") 1 "java" "code" 0
        (fun _ => .runSuccess [.pass, .failTimeout])).2
      = [Effect.invokeRunner { solution := "code",
                               tests := [("i1", "o1"), ("i2", "o2")], timeout := 10 },
         .dbAddTestRun "u" 0, .broadcastTeamUpdate "u",
         .send (.user "u") (.testResults 1
           (.individual [(.pass, { input := "i1", output := "o1", visible := true })]) 50)] := by
  have h := C7_test_run_executes_all_tests c7State "u" 1 "java" "code" 0
    (fun _ => .runSuccess [.pass, .failTimeout]) (by decide) (by decide) (by decide)
  exact ⟨h.2.1, h.2.2 [.pass, .failTimeout] rfl⟩

end Basalt
